import Mathlib

/-! Dashboard script (`src/dashboard.js`): model and verified properties.

The script keeps two module variables (`allArticles`, `currentFilter`), reads and writes a
handful of DOM regions, and talks to two HTTP endpoints.  The model below is a shallow
embedding: every function of the script becomes a Lean function on an explicit state
(`State`), the browser services the script calls (clock, `Date` parsing, locale date
formatting, HTML escaping, lower-casing) are fields of `Env`, and the outcome of each
`fetch` is an argument of the function that awaits it.

Conventions.
* A JavaScript `Number` that can be `NaN` is an `Option Int`, `none` standing for `NaN`.
  Time values are integral milliseconds.  `Math.floor (x / k)` for positive `k` is the
  integer floor division; the double quotient can differ from the exact one only for
  elapsed times beyond 2^36 minutes, far inside the last branch of `getTimeAgo`, where the
  quotient is not printed.
* An array is a `List`.  `Array.prototype.filter` allocates a new array, whereas
  `filterArticles` hands back its argument itself for the key `all`; `Array.prototype.sort`
  reorders its receiver in place.  `renderArticles` tracks this aliasing explicitly.
* Each `async` function is run without interleaving: the state it resumes on after `await`
  is the state it left.
-/

namespace Dashboard

/-! ## Data model -/

/-- An article record of the snapshot returned by `GET /api/articles`. -/
structure Article where
  id : String
  title : String
  summary : Option String
  source : String
  url : String
  published_at : String
  saved : Bool
deriving DecidableEq

/-- Browser services used by the script. `dateParse s` is the time value of `new Date(s)`
in milliseconds, `none` when the date is invalid (time value `NaN`). -/
structure Env where
  now : Int
  dateParse : String → Option Int
  toLocaleDateString : Option Int → String
  escapeHtml : String → String
  toLowerCase : String → String

/-- Inline `style.display` of a region: not yet assigned by the script, `none`, or `block`. -/
inductive Display where
  | unset
  | none
  | block
deriving DecidableEq

/-- One card of the grid: the values interpolated by the template of `createArticleCard`. -/
structure Card where
  dataId : String
  sourceClass : String
  sourceLabel : String
  savedClass : String
  savedIcon : String
  title : String
  summary : Option String
  timeAgo : String
  href : String
deriving DecidableEq

/-- Observable side effects other than DOM writes, newest last. -/
inductive Effect where
  | fetchGet (url : String)
  | fetchPost (url : String) (saved : Bool)
  | consoleError (label : String) (message : String)
  | hideTimer (ms : Nat)
deriving DecidableEq

/-- Module variables (lines 3-4) together with the DOM regions the script writes. The grid
holds the card fragments whose concatenation is `innerHTML`; `saveListeners` lists the ids
bound to the click handlers of the save buttons currently in the grid. -/
structure State where
  allArticles : List Article
  currentFilter : String
  loading : Display
  emptyState : Display
  errorState : Display
  errorMessage : String
  grid : List Card
  saveListeners : List String
  totalCount : Nat
  savedCount : Nat
  lastUpdated : String
  notificationText : String
  notificationShow : Bool
  effects : List Effect
deriving DecidableEq

/-- Parsed JSON body of the load response: `articles` is `none` when the property is
missing or null, `last_updated` is `none` when it is missing or falsy. -/
structure Snapshot where
  articles : Option (List Article)
  last_updated : Option String
deriving DecidableEq

/-- Body of a response as seen by `response.json()` and the property reads that follow:
`invalid m` when that raises an error with message `m`, `json d` otherwise. -/
inductive Body where
  | invalid (message : String)
  | json (data : Snapshot)
deriving DecidableEq

/-- Outcome of an awaited `fetch`: the promise rejects, or a response arrives. -/
inductive FetchResult where
  | networkError (message : String)
  | response (status : Nat) (statusText : String) (body : Body)
deriving DecidableEq

/-- The `ok` flag of a response: status in the range 200 to 299. -/
def responseOk (status : Nat) : Bool :=
  decide (200 ≤ status) && decide (status ≤ 299)

/-! ## Time formatting (lines 245-259) -/

/-- The `s` suffix chosen by `count > 1 ? 's' : ''`. -/
def pluralSuffix (count : Int) : String :=
  if count > 1 then "s" else ""

/-- Function `getTimeAgo` (lines 245-259). With an invalid date every comparison is false
and the localized date string of the invalid date is returned. -/
def getTimeAgo (env : Env) (timestamp : String) : String :=
  match env.dateParse timestamp with
  | Option.none => env.toLocaleDateString Option.none
  | some past =>
    let diffMs : Int := env.now - past
    let diffMins : Int := diffMs / 60000
    let diffHours : Int := diffMins / 60
    let diffDays : Int := diffHours / 24
    if diffMins < 1 then "Just now"
    else if diffMins < 60 then
      toString diffMins ++ " minute" ++ pluralSuffix diffMins ++ " ago"
    else if diffHours < 24 then
      toString diffHours ++ " hour" ++ pluralSuffix diffHours ++ " ago"
    else if diffDays < 7 then
      toString diffDays ++ " day" ++ pluralSuffix diffDays ++ " ago"
    else env.toLocaleDateString (some past)

/-! ## Filtering and sorting (lines 82-87, 104-115) -/

/-- Function `filterArticles` (lines 104-115). -/
def filterArticles (articles : List Article) (filter : String) : List Article :=
  if filter = "all" then articles
  else if filter = "saved" then articles.filter (fun a => a.saved)
  else articles.filter (fun a => decide (a.source = filter))

/-- The comparator passed to `sort` (lines 85-87): the difference of the two time values,
`NaN` as soon as one of the dates is invalid. -/
def compareFn (env : Env) (a b : Article) : Option Int :=
  match env.dateParse b.published_at, env.dateParse a.published_at with
  | some tb, some ta => some (tb - ta)
  | _, _ => Option.none

/-- The abstract operation `SortCompare` of `Array.prototype.sort`: a `NaN` answer of the
comparator counts as `+0`. -/
def sortCompare (env : Env) (a b : Article) : Int :=
  (compareFn env a b).getD 0

/-- The receiver after `Array.prototype.sort` with the comparator of lines 85-87. The
language fixes the outcome for a consistent comparator (the stable sorted order) and leaves
it to the engine otherwise; the model is the stable insertion sort, which places an element
in front of the first later element it does not have to follow. The comparator of lines
85-87 is consistent on a list exactly when every date of the list parses or every pair of
the list ties; on those lists the model is the order every engine produces. On a list that
mixes invalid dates with valid dates that differ, the model is one admissible order among
those an engine may produce. -/
def sortArticles (env : Env) (l : List Article) : List Article :=
  l.insertionSort (fun a b => sortCompare env a b ≤ 0)

/-- The list `renderArticles` draws: `filtered` after line 87. -/
def displayList (env : Env) (allArticles : List Article) (filter : String) : List Article :=
  sortArticles env (filterArticles allArticles filter)

/-! ## Cards (lines 118-146) -/

/-- The expression `source.toLowerCase().replace(/[^a-z]/g, '')` of line 119. -/
def sourceClassOf (env : Env) (source : String) : String :=
  String.mk ((env.toLowerCase source).toList.filter (fun c => decide ('a' ≤ c) && decide (c ≤ 'z')))

/-- Function `createArticleCard` (lines 118-146). The summary paragraph is present only for
a non-empty summary. -/
def createArticleCard (env : Env) (article : Article) : Card where
  dataId := article.id
  sourceClass := sourceClassOf env article.source
  sourceLabel := article.source
  savedClass := if article.saved then "saved" else ""
  savedIcon := if article.saved then "❤️" else "🤍"
  title := env.escapeHtml article.title
  summary :=
    match article.summary with
    | some t => if t = "" then Option.none else some (env.escapeHtml t)
    | Option.none => Option.none
  timeAgo := getTimeAgo env article.published_at
  href := article.url

/-! ## View state (lines 70-101, 202-242) -/

/-- Function `showLoading` (lines 215-220). Clearing the grid discards its buttons. -/
def showLoading (s : State) : State :=
  { s with loading := Display.block, grid := [], saveListeners := [],
           emptyState := Display.none, errorState := Display.none }

/-- Function `showError` (lines 223-229). -/
def showError (s : State) (message : String) : State :=
  { s with errorState := Display.block, errorMessage := message, loading := Display.none,
           grid := [], saveListeners := [], emptyState := Display.none }

/-- Function `showNotification` (lines 232-242); the second parameter is never read. -/
def showNotification (s : State) (text : String) (_isError : Bool) : State :=
  { s with notificationText := text, notificationShow := true,
           effects := s.effects ++ [Effect.hideTimer 3000] }

/-- Function `updateStats` (lines 202-212). -/
def updateStats (env : Env) (s : State) (lastUpdated : Option String) : State :=
  let s1 := { s with totalCount := s.allArticles.length,
                     savedCount := (s.allArticles.filter (fun a => a.saved)).length }
  match lastUpdated with
  | some t => { s1 with lastUpdated := getTimeAgo env t }
  | Option.none => s1

/-- Function `renderArticles` (lines 70-101). For the key `all` the array sorted in place at
line 85 is `allArticles` itself (line 106 returns its argument), so the module variable
takes the sorted order; for any other key `filtered` is a new array. -/
def renderArticles (env : Env) (s : State) : State :=
  let s1 := { s with loading := Display.none, emptyState := Display.none,
                     errorState := Display.none }
  let filtered := sortArticles env (filterArticles s1.allArticles s1.currentFilter)
  let s2 := if s1.currentFilter = "all" then { s1 with allArticles := filtered } else s1
  if filtered.length = 0 then
    { s2 with grid := [], saveListeners := [], emptyState := Display.block }
  else
    let cards := filtered.map (createArticleCard env)
    { s2 with grid := cards, saveListeners := cards.map (fun c => c.dataId) }

/-! ## Load and save flows (lines 38-67, 162-199) -/

/-- Function `loadArticles` (lines 38-67), given the outcome of its `fetch`. Every error
raised inside `try` reaches the single `catch` block, which logs and calls `showError`. -/
def loadArticles (env : Env) (s : State) (silent : Bool) (r : FetchResult) : State :=
  let s1 := if !silent then showLoading s else s
  let s2 := { s1 with effects := s1.effects ++ [Effect.fetchGet "/api/articles"] }
  let onError := fun (message : String) =>
    showError { s2 with effects :=
      s2.effects ++ [Effect.consoleError "Error loading articles:" message] } message
  match r with
  | FetchResult.networkError message => onError message
  | FetchResult.response status statusText body =>
    if !responseOk status then
      onError ("HTTP " ++ toString status ++ ": " ++ statusText)
    else
      match body with
      | Body.invalid message => onError message
      | Body.json data =>
        let s3 := { s2 with allArticles := data.articles.getD [] }
        let s4 := updateStats env s3 data.last_updated
        let s5 := renderArticles env s4
        if silent then showNotification s5 "Dashboard refreshed" false else s5

/-- The store after `article.saved = value` for the object returned by
`allArticles.find(a => a.id === articleId)`: the first article with that id. -/
def setSaved (articleId : String) (value : Bool) : List Article → List Article
  | [] => []
  | a :: l =>
    if a.id = articleId then { a with saved := value } :: l
    else a :: setSaved articleId value l

/-- Message of the error raised at lines 178-181 for a response that is not ok. -/
def saveErrorMessage (status : Nat) : String :=
  if status = 405 ∨ status = 404 then
    "Save functionality is not available in the static preview. Use the local server for full features."
  else "Failed to update save status"

/-- Function `toggleSave` (lines 162-199), given the outcome of its `fetch`. The `catch`
block logs the error and shows one fixed text whatever the error is. -/
def toggleSave (env : Env) (s : State) (articleId : String) (r : FetchResult) : State :=
  match s.allArticles.find? (fun a => decide (a.id = articleId)) with
  | Option.none => s
  | some article =>
    let newSavedStatus := !article.saved
    let s1 := { s with effects := s.effects ++
      [Effect.fetchPost ("/api/articles/" ++ articleId ++ "/save") newSavedStatus] }
    let onError := fun (message : String) =>
      showNotification { s1 with effects :=
        s1.effects ++ [Effect.consoleError "Error toggling save:" message] }
        "Failed to save article" true
    match r with
    | FetchResult.networkError message => onError message
    | FetchResult.response status _ _ =>
      if !responseOk status then onError (saveErrorMessage status)
      else
        let s2 := { s1 with allArticles := setSaved articleId newSavedStatus s1.allArticles }
        let s3 := updateStats env s2 Option.none
        let s4 := renderArticles env s3
        showNotification s4 (if newSavedStatus then "Article saved!" else "Article unsaved") false

/-! ## View states -/

/-- The four view states of the page. -/
inductive ViewState where
  | loading
  | error
  | empty
  | populated
deriving DecidableEq

/-- What it means for a view state to be the one on screen, read off the three regions and
the grid: a region is shown when its display is `block` and hidden when it is `none`. -/
def Visible (s : State) : ViewState → Prop
  | ViewState.loading =>
    s.loading = Display.block ∧ s.emptyState = Display.none ∧
      s.errorState = Display.none ∧ s.grid = []
  | ViewState.error =>
    s.errorState = Display.block ∧ s.loading = Display.none ∧
      s.emptyState = Display.none ∧ s.grid = []
  | ViewState.empty =>
    s.emptyState = Display.block ∧ s.loading = Display.none ∧
      s.errorState = Display.none ∧ s.grid = []
  | ViewState.populated =>
    s.loading = Display.none ∧ s.emptyState = Display.none ∧
      s.errorState = Display.none ∧ s.grid ≠ []

instance (s : State) (v : ViewState) : Decidable (Visible s v) := by
  cases v <;> unfold Visible <;> infer_instance

/-- Exactly one view state is on screen, and it is `v`. -/
def OnlyVisible (s : State) (v : ViewState) : Prop :=
  Visible s v ∧ ∀ w : ViewState, Visible s w → w = v

/-! ## Sample data used by the concrete instances -/

/-- A browser stand-in: two ISO timestamps parse, every other string is an invalid date. -/
def sampleEnv : Env where
  now := 864000020
  dateParse := fun s =>
    if s = "1970-01-01T00:00:00.010Z" then some 10
    else if s = "1970-01-01T00:00:00.020Z" then some 20
    else Option.none
  toLocaleDateString := fun t =>
    match t with
    | some _ => "1/1/1970"
    | Option.none => "Invalid Date"
  escapeHtml := fun t => t
  toLowerCase := fun t => t

/-- Article A, published at time 10. -/
def artA : Article :=
  { id := "a", title := "A", summary := Option.none, source := "Blog", url := "/a",
    published_at := "1970-01-01T00:00:00.010Z", saved := false }

/-- Article B, published at time 20. -/
def artB : Article :=
  { id := "b", title := "B", summary := some "b", source := "News", url := "/b",
    published_at := "1970-01-01T00:00:00.020Z", saved := true }

/-- Article C, published at time 20. -/
def artC : Article :=
  { id := "c", title := "C", summary := Option.none, source := "News", url := "/c",
    published_at := "1970-01-01T00:00:00.020Z", saved := false }

/-- Article X, whose date does not parse. -/
def artX : Article :=
  { id := "x", title := "X", summary := Option.none, source := "Blog", url := "/x",
    published_at := "soon", saved := false }

/-- The page before the first load: lines 3-4 and regions not yet written. -/
def initialState : State :=
  { allArticles := [], currentFilter := "all", loading := Display.unset,
    emptyState := Display.unset, errorState := Display.unset, errorMessage := "",
    grid := [], saveListeners := [], totalCount := 0, savedCount := 0, lastUpdated := "",
    notificationText := "", notificationShow := false, effects := [] }

/-- A page showing articles A and B under the key `saved`, store in the order A, B. -/
def sampleState : State :=
  renderArticles sampleEnv
    { initialState with allArticles := [artA, artB], currentFilter := "saved" }

/-! ## Lemmas on the sort -/

/-- The order the sort works with, on two articles whose dates parse. -/
lemma sortCompare_of_parse (env : Env) (a b : Article) (ta tb : Int)
    (ha : env.dateParse a.published_at = some ta)
    (hb : env.dateParse b.published_at = some tb) :
    sortCompare env a b = tb - ta := by
  simp [sortCompare, compareFn, ha, hb]

/-- An invalid date on either side makes the comparison answer zero. -/
lemma sortCompare_of_invalid (env : Env) (a b : Article)
    (h : env.dateParse a.published_at = Option.none ∨
      env.dateParse b.published_at = Option.none) :
    sortCompare env a b = 0 := by
  unfold sortCompare compareFn
  rcases h with h | h
  · rw [h]
    cases env.dateParse b.published_at <;> rfl
  · rw [h]
    rfl

/-- Two articles with the same time value compare as equal. -/
lemma sortCompare_same_time (env : Env) (a b : Article) (t : Int)
    (ha : env.dateParse a.published_at = some t)
    (hb : env.dateParse b.published_at = some t) :
    sortCompare env a b ≤ 0 := by
  rw [sortCompare_of_parse env a b t t ha hb]
  omega

/-- The sort returns a rearrangement of its input. -/
lemma sortArticles_perm (env : Env) (l : List Article) : (sortArticles env l).Perm l :=
  List.perm_insertionSort _ l

/-- Inserting an article that satisfies `p` puts it in front of all others that do, when
it need not follow any of them. -/
lemma filter_orderedInsert_pos (r : Article → Article → Prop) [DecidableRel r]
    (p : Article → Bool) (a : Article) (hpa : p a = true) :
    ∀ l : List Article, (∀ b ∈ l, p b = true → r a b) →
      (l.orderedInsert r a).filter p = a :: l.filter p
  | [], _ => by simp [hpa]
  | b :: l, h => by
    by_cases hab : r a b
    · simp [List.orderedInsert, hab, hpa]
    · have hpb : p b = false := by
        cases hb : p b
        · rfl
        · exact absurd (h b (List.mem_cons_self b l) hb) hab
      have ih := filter_orderedInsert_pos r p a hpa l
        (fun c hc => h c (List.mem_cons_of_mem b hc))
      simp [List.orderedInsert, hab, hpb, ih]

/-- Inserting an article that fails `p` is invisible through the filter `p`. -/
lemma filter_orderedInsert_neg (r : Article → Article → Prop) [DecidableRel r]
    (p : Article → Bool) (a : Article) (hpa : p a = false) :
    ∀ l : List Article, (l.orderedInsert r a).filter p = l.filter p
  | [] => by simp [hpa]
  | b :: l => by
    by_cases hab : r a b
    · simp [List.orderedInsert, hab, hpa]
    · have ih := filter_orderedInsert_neg r p a hpa l
      cases hb : p b <;> simp [List.orderedInsert, hab, hb, ih]

/-- Stability: the articles of one given time value come out in their input order. -/
lemma sortArticles_filter_time (env : Env) (t : Int) :
    ∀ l : List Article,
      (sortArticles env l).filter (fun a => decide (env.dateParse a.published_at = some t)) =
        l.filter (fun a => decide (env.dateParse a.published_at = some t))
  | [] => rfl
  | a :: l => by
    have ih := sortArticles_filter_time env t l
    show ((sortArticles env l).orderedInsert _ a).filter _ = _
    cases hpa : decide (env.dateParse a.published_at = some t)
    · rw [filter_orderedInsert_neg _ _ a hpa, ih]
      simp [List.filter, hpa]
    · rw [filter_orderedInsert_pos _ _ a hpa, ih]
      · simp [List.filter, hpa]
      · intro b _ hpb
        exact sortCompare_same_time env a b t (of_decide_eq_true hpa) (of_decide_eq_true hpb)

/-- Inserting into a newest-first list keeps it newest-first, as long as the comparison
agrees with the key `k` on the articles involved. -/
lemma orderedInsert_descending (env : Env) (k : Article → Int) (a : Article) :
    ∀ l : List Article,
      (∀ x ∈ a :: l, ∀ y ∈ a :: l, sortCompare env x y ≤ 0 ↔ k y ≤ k x) →
      l.Pairwise (fun x y => k y ≤ k x) →
      (l.orderedInsert (fun x y => sortCompare env x y ≤ 0) a).Pairwise (fun x y => k y ≤ k x)
  | [], _, _ => by simp
  | b :: l, hk, h => by
    have hb : ∀ c ∈ l, k c ≤ k b := fun c hc => List.rel_of_pairwise_cons h hc
    have hl := List.Pairwise.of_cons h
    have hma : a ∈ a :: b :: l := List.mem_cons_self _ _
    have hmb : b ∈ a :: b :: l := List.mem_cons_of_mem _ (List.mem_cons_self _ _)
    by_cases hab : sortCompare env a b ≤ 0
    · simp only [List.orderedInsert, hab, if_true]
      refine List.Pairwise.cons ?_ h
      intro c hc
      have hba : k b ≤ k a := (hk a hma b hmb).1 hab
      rcases List.mem_cons.1 hc with rfl | hc
      · exact hba
      · exact le_trans (hb c hc) hba
    · simp only [List.orderedInsert, hab, if_false]
      have hk2 : ∀ x ∈ a :: l, ∀ y ∈ a :: l, sortCompare env x y ≤ 0 ↔ k y ≤ k x := by
        intro x hx y hy
        have hx2 : x ∈ a :: b :: l := by
          rcases List.mem_cons.1 hx with rfl | hx
          · exact hma
          · exact List.mem_cons_of_mem _ (List.mem_cons_of_mem _ hx)
        have hy2 : y ∈ a :: b :: l := by
          rcases List.mem_cons.1 hy with rfl | hy
          · exact hma
          · exact List.mem_cons_of_mem _ (List.mem_cons_of_mem _ hy)
        exact hk x hx2 y hy2
      refine List.Pairwise.cons ?_ (orderedInsert_descending env k a l hk2 hl)
      intro c hc
      rcases (List.mem_orderedInsert _).1 hc with rfl | hc
      · have : ¬ k b ≤ k c := fun h1 => hab ((hk c hma b hmb).2 h1)
        omega
      · exact hb c hc

/-- The insertion sort orders by the key `k`, largest first, on a list whose articles the
comparison ranks by `k`. -/
lemma sortArticles_descending (env : Env) (k : Article → Int) :
    ∀ l : List Article,
      (∀ x ∈ l, ∀ y ∈ l, sortCompare env x y ≤ 0 ↔ k y ≤ k x) →
      (sortArticles env l).Pairwise (fun x y => k y ≤ k x)
  | [], _ => by simp [sortArticles]
  | a :: l, hk => by
    have ih := sortArticles_descending env k l
      (fun x hx y hy => hk x (List.mem_cons_of_mem _ hx) y (List.mem_cons_of_mem _ hy))
    show ((sortArticles env l).orderedInsert _ a).Pairwise _
    refine orderedInsert_descending env k a _ ?_ ih
    intro x hx y hy
    have hx2 : x ∈ a :: l := by
      rcases List.mem_cons.1 hx with rfl | hx
      · exact List.mem_cons_self _ _
      · exact List.mem_cons_of_mem _ ((sortArticles_perm env l).mem_iff.1 hx)
    have hy2 : y ∈ a :: l := by
      rcases List.mem_cons.1 hy with rfl | hy
      · exact List.mem_cons_self _ _
      · exact List.mem_cons_of_mem _ ((sortArticles_perm env l).mem_iff.1 hy)
    exact hk x hx2 y hy2

/-- On a list in which no article has to follow a later one the sort changes nothing. -/
lemma sortArticles_eq_self (env : Env) (l : List Article)
    (h : l.Pairwise (fun a b => sortCompare env a b ≤ 0)) : sortArticles env l = l :=
  List.Sorted.insertionSort_eq h

/-- The grid drawn by `renderArticles` is one card per article of the display list. -/
lemma renderArticles_grid (env : Env) (s : State) :
    (renderArticles env s).grid =
      (displayList env s.allArticles s.currentFilter).map (createArticleCard env) := by
  unfold renderArticles displayList
  simp only
  split
  · rename_i h
    simp [List.length_eq_zero.1 h]
  · rfl

/-- A state whose regions and grid have the shape of a view state shows that one only. -/
lemma onlyVisible_of_visible (s : State) (v : ViewState) (h : Visible s v) :
    OnlyVisible s v := by
  refine ⟨h, ?_⟩
  intro w hw
  cases v <;> cases w <;> first
    | rfl
    | (exfalso
       simp only [Visible] at h hw
       simp_all)

/-- The regions and the grid after `renderArticles` with an empty display list. -/
lemma renderArticles_empty (env : Env) (s : State)
    (h : (displayList env s.allArticles s.currentFilter).length = 0) :
    Visible (renderArticles env s) ViewState.empty := by
  unfold displayList at h
  refine ⟨?_, ?_, ?_, ?_⟩ <;>
  · unfold renderArticles
    simp only [h, if_true]
    try (split <;> rfl)

/-- The regions and the grid after `renderArticles` with a non-empty display list. -/
lemma renderArticles_populated (env : Env) (s : State)
    (h : ¬ (displayList env s.allArticles s.currentFilter).length = 0) :
    Visible (renderArticles env s) ViewState.populated := by
  have hg := renderArticles_grid env s
  have hne : (renderArticles env s).grid ≠ [] := by
    rw [hg]
    intro hnil
    exact h (by simpa using congrArg List.length hnil)
  unfold displayList at h
  refine ⟨?_, ?_, ?_, hne⟩ <;>
  · unfold renderArticles
    simp only [h, if_false]
    split <;> rfl

/-- On a list whose dates all parse the sort is newest first. -/
lemma sortArticles_newest_first (env : Env) (l : List Article)
    (hp : ∀ a ∈ l, (env.dateParse a.published_at).isSome = true) :
    (sortArticles env l).Pairwise
      (fun a b => ∃ ta tb, env.dateParse a.published_at = some ta ∧
        env.dateParse b.published_at = some tb ∧ tb ≤ ta) := by
  have hparse : ∀ a ∈ l, ∃ t, env.dateParse a.published_at = some t := fun a ha =>
    Option.isSome_iff_exists.1 (hp a ha)
  have hk : ∀ x ∈ l, ∀ y ∈ l, sortCompare env x y ≤ 0 ↔
      (env.dateParse y.published_at).getD 0 ≤ (env.dateParse x.published_at).getD 0 := by
    intro x hx y hy
    obtain ⟨tx, hx⟩ := hparse x hx
    obtain ⟨ty, hy⟩ := hparse y hy
    rw [sortCompare_of_parse env x y tx ty hx hy, hx, hy]
    simp
  have hsorted := sortArticles_descending env
    (fun a => (env.dateParse a.published_at).getD 0) l hk
  refine List.Pairwise.imp_of_mem ?_ hsorted
  intro a b ha hb hab
  obtain ⟨ta, hta⟩ := hparse a ((sortArticles_perm env l).mem_iff.1 ha)
  obtain ⟨tb, htb⟩ := hparse b ((sortArticles_perm env l).mem_iff.1 hb)
  refine ⟨ta, tb, hta, htb, ?_⟩
  simpa [hta, htb] using hab

/-- On a list all of whose pairs tie the sort changes nothing. -/
lemma sortArticles_of_all_tie (env : Env) (l : List Article)
    (h : ∀ a ∈ l, ∀ b ∈ l, sortCompare env a b = 0) : sortArticles env l = l := by
  refine sortArticles_eq_self env l ?_
  rw [List.pairwise_iff_forall_sublist]
  intro a b hab
  have ha : a ∈ l := hab.subset (List.mem_cons_self _ _)
  have hb : b ∈ l := hab.subset (List.mem_cons_of_mem _ (List.mem_cons_self _ _))
  exact le_of_eq (h a ha b hb)

/-- The time label of a card whose article has an invalid date is the locale string of the
invalid date. -/
lemma createArticleCard_timeAgo_invalid (env : Env) (a : Article)
    (h : env.dateParse a.published_at = Option.none) :
    (createArticleCard env a).timeAgo = env.toLocaleDateString Option.none := by
  simp [createArticleCard, getTimeAgo, h]

/-! ## Filtering -/

/-- C1: `filterArticles` returns its input unchanged for the key `all`, exactly the saved
articles in input order for the key `saved`, and for every other key exactly the articles
whose source equals the key, compared as is, in input order. -/
theorem filterArticles_spec (articles : List Article) (key : String) :
    (key = "all" → filterArticles articles key = articles) ∧
    (key = "saved" →
      filterArticles articles key = articles.filter (fun a => a.saved) ∧
      ∀ a, a ∈ filterArticles articles key ↔ a ∈ articles ∧ a.saved = true) ∧
    (key ≠ "all" → key ≠ "saved" →
      filterArticles articles key = articles.filter (fun a => decide (a.source = key)) ∧
      ∀ a, a ∈ filterArticles articles key ↔ a ∈ articles ∧ a.source = key) ∧
    (filterArticles articles key).Sublist articles := by
  refine ⟨?_, ?_, ?_, ?_⟩
  · intro h
    simp [filterArticles, h]
  · intro h
    subst h
    have hne : ¬ ("saved" = "all") := by decide
    simp [filterArticles, hne]
  · intro h1 h2
    simp [filterArticles, h1, h2]
  · unfold filterArticles
    split
    · exact List.Sublist.refl _
    · split
      · exact List.filter_sublist _
      · exact List.filter_sublist _

/-- Instance of C1: filtering the three sample articles by the source `News`. -/
theorem filterArticles_spec_witness :
    filterArticles [artA, artB, artC] "News" =
        [artA, artB, artC].filter (fun a => decide (a.source = "News")) ∧
      ∀ a, a ∈ filterArticles [artA, artB, artC] "News" ↔
        a ∈ [artA, artB, artC] ∧ a.source = "News" :=
  (filterArticles_spec [artA, artB, artC] "News").2.2.1 (by decide) (by decide)

/-! ## Sorting -/

/-- C2: when every filtered article has a date that parses, the list drawn by
`renderArticles` is a rearrangement of the filtered list, ordered newest first, in which
articles of equal time keep their input order; A(10), B(20), C(20) are drawn as B, C, A. -/
theorem renderArticles_newest_first_stable (env : Env) (s : State)
    (hp : ∀ a ∈ filterArticles s.allArticles s.currentFilter,
      (env.dateParse a.published_at).isSome = true) :
    (renderArticles env s).grid =
        (displayList env s.allArticles s.currentFilter).map (createArticleCard env) ∧
      (displayList env s.allArticles s.currentFilter).Perm
        (filterArticles s.allArticles s.currentFilter) ∧
      (displayList env s.allArticles s.currentFilter).Pairwise
        (fun a b => ∃ ta tb, env.dateParse a.published_at = some ta ∧
          env.dateParse b.published_at = some tb ∧ tb ≤ ta) ∧
      (∀ t : Int,
        (displayList env s.allArticles s.currentFilter).filter
            (fun a => decide (env.dateParse a.published_at = some t)) =
          (filterArticles s.allArticles s.currentFilter).filter
            (fun a => decide (env.dateParse a.published_at = some t))) ∧
      displayList sampleEnv [artA, artB, artC] "all" = [artB, artC, artA] := by
  refine ⟨renderArticles_grid env s, sortArticles_perm env _, ?_,
    fun t => sortArticles_filter_time env t _, by decide⟩
  have hparse : ∀ a ∈ filterArticles s.allArticles s.currentFilter,
      ∃ t, env.dateParse a.published_at = some t := fun a ha =>
    Option.isSome_iff_exists.1 (hp a ha)
  have hk : ∀ x ∈ filterArticles s.allArticles s.currentFilter,
      ∀ y ∈ filterArticles s.allArticles s.currentFilter,
      sortCompare env x y ≤ 0 ↔
        (env.dateParse y.published_at).getD 0 ≤ (env.dateParse x.published_at).getD 0 := by
    intro x hx y hy
    obtain ⟨tx, hx⟩ := hparse x hx
    obtain ⟨ty, hy⟩ := hparse y hy
    rw [sortCompare_of_parse env x y tx ty hx hy, hx, hy]
    simp
  have hsorted := sortArticles_descending env
    (fun a => (env.dateParse a.published_at).getD 0) _ hk
  refine List.Pairwise.imp_of_mem ?_ hsorted
  intro a b ha hb hab
  obtain ⟨ta, hta⟩ := hparse a ((sortArticles_perm env _).mem_iff.1 ha)
  obtain ⟨tb, htb⟩ := hparse b ((sortArticles_perm env _).mem_iff.1 hb)
  refine ⟨ta, tb, hta, htb, ?_⟩
  simpa [hta, htb] using hab

/-- Instance of C2: the three sample articles under the key `all`. -/
theorem renderArticles_newest_first_stable_witness :
    (displayList sampleEnv [artA, artB, artC] "all").Pairwise
      (fun a b => ∃ ta tb, sampleEnv.dateParse a.published_at = some ta ∧
        sampleEnv.dateParse b.published_at = some tb ∧ tb ≤ ta) :=
  (renderArticles_newest_first_stable sampleEnv
    { initialState with allArticles := [artA, artB, artC] } (by decide)).2.2.1

/-- Counterexample to C3: with the store holding X (date invalid) then B (date valid), the
list drawn is X, B, so an article whose date does not parse stands before one whose date
parses. -/
theorem invalid_date_not_last :
    sampleEnv.dateParse artX.published_at = Option.none ∧
      sampleEnv.dateParse artB.published_at = some 20 ∧
      displayList sampleEnv [artX, artB] "all" = [artX, artB] ∧
      ((renderArticles sampleEnv { initialState with allArticles := [artX, artB] }).grid.map
        (fun c => c.dataId)) = ["x", "b"] ∧
      ¬ (displayList sampleEnv [artX, artB] "all").Pairwise
        (fun a b => sampleEnv.dateParse a.published_at = Option.none →
          sampleEnv.dateParse b.published_at = Option.none) := by
  decide

/-- C3 as amended: for every article list rendering completes without raising, with one
card per filtered article, the card of an article whose date does not parse carrying the
locale string of the invalid date as its time label, and the list drawn is a rearrangement
of the filtered list. A date that does not parse is not taken as the earliest time: the
comparator answers NaN on every pair containing it, which the sort counts as a tie. The list
drawn is newest first when every filtered date parses, and it is the filtered list in input
order when every pair of filtered articles ties, in particular when no filtered date
parses. Nothing is stated on the order of a list that mixes dates that do not parse with
dates that parse and differ. -/
theorem renderArticles_invalid_dates (env : Env) (s : State) :
    ((renderArticles env s).grid =
        (displayList env s.allArticles s.currentFilter).map (createArticleCard env) ∧
      (renderArticles env s).grid.length =
        (filterArticles s.allArticles s.currentFilter).length ∧
      OnlyVisible (renderArticles env s)
        (if (filterArticles s.allArticles s.currentFilter).length = 0 then ViewState.empty
          else ViewState.populated)) ∧
      (∀ a : Article, env.dateParse a.published_at = Option.none →
        (createArticleCard env a).timeAgo = env.toLocaleDateString Option.none) ∧
      (displayList env s.allArticles s.currentFilter).Perm
        (filterArticles s.allArticles s.currentFilter) ∧
      (∀ a b : Article,
        env.dateParse a.published_at = Option.none ∨
            env.dateParse b.published_at = Option.none →
          compareFn env a b = Option.none ∧ sortCompare env a b = 0) ∧
      ((∀ a ∈ filterArticles s.allArticles s.currentFilter,
          (env.dateParse a.published_at).isSome = true) →
        (displayList env s.allArticles s.currentFilter).Pairwise
          (fun a b => ∃ ta tb, env.dateParse a.published_at = some ta ∧
            env.dateParse b.published_at = some tb ∧ tb ≤ ta)) ∧
      ((∀ a ∈ filterArticles s.allArticles s.currentFilter,
          ∀ b ∈ filterArticles s.allArticles s.currentFilter, sortCompare env a b = 0) →
        displayList env s.allArticles s.currentFilter =
          filterArticles s.allArticles s.currentFilter) ∧
      ((∀ a ∈ filterArticles s.allArticles s.currentFilter,
          env.dateParse a.published_at = Option.none) →
        displayList env s.allArticles s.currentFilter =
          filterArticles s.allArticles s.currentFilter) := by
  have hlen : (displayList env s.allArticles s.currentFilter).length =
      (filterArticles s.allArticles s.currentFilter).length :=
    (sortArticles_perm env _).length_eq
  refine ⟨⟨renderArticles_grid env s, ?_, ?_⟩, createArticleCard_timeAgo_invalid env,
    sortArticles_perm env _, ?_, sortArticles_newest_first env _, ?_, ?_⟩
  · rw [renderArticles_grid, List.length_map, hlen]
  · rw [← hlen]
    by_cases h : (displayList env s.allArticles s.currentFilter).length = 0
    · rw [if_pos h]
      exact onlyVisible_of_visible _ _ (renderArticles_empty env s h)
    · rw [if_neg h]
      exact onlyVisible_of_visible _ _ (renderArticles_populated env s h)
  · intro a b h
    refine ⟨?_, sortCompare_of_invalid env a b h⟩
    unfold compareFn
    rcases h with h | h
    · rw [h]
      cases env.dateParse b.published_at <;> rfl
    · rw [h]
  · intro h
    exact sortArticles_of_all_tie env _ h
  · intro h
    refine sortArticles_of_all_tie env _ ?_
    intro a ha b _
    exact sortCompare_of_invalid env a b (Or.inl (h a ha))

/-- Instance of C3 as amended: in the store X, B under the key `all` every pair ties, and
the list drawn is X, B. -/
theorem renderArticles_invalid_dates_witness :
    (∀ a ∈ filterArticles [artX, artB] "all", ∀ b ∈ filterArticles [artX, artB] "all",
        sortCompare sampleEnv a b = 0) ∧
      displayList sampleEnv [artX, artB] "all" = filterArticles [artX, artB] "all" :=
  ⟨by decide,
    (renderArticles_invalid_dates sampleEnv
      { initialState with allArticles := [artX, artB] }).2.2.2.2.2.1 (by decide)⟩

/-! ## Frame of rendering -/

/-- Under any key other than `all`, rendering leaves the store as it is. -/
lemma renderArticles_allArticles_of_ne (env : Env) (s : State) (h : s.currentFilter ≠ "all") :
    (renderArticles env s).allArticles = s.allArticles := by
  unfold renderArticles
  simp only [h, if_false]
  split <;> rfl

/-- Under the key `all`, rendering leaves the store in display order. -/
lemma renderArticles_allArticles_of_all (env : Env) (s : State) (h : s.currentFilter = "all") :
    (renderArticles env s).allArticles = sortArticles env s.allArticles := by
  unfold renderArticles
  simp only [h, if_true, filterArticles]
  split <;> rfl

/-- Rendering keeps the articles of the store, up to their order. -/
lemma renderArticles_allArticles_perm (env : Env) (s : State) :
    (renderArticles env s).allArticles.Perm s.allArticles := by
  by_cases h : s.currentFilter = "all"
  · rw [renderArticles_allArticles_of_all env s h]
    exact sortArticles_perm env _
  · rw [renderArticles_allArticles_of_ne env s h]

/-- Rendering does not touch the filter key. -/
lemma renderArticles_currentFilter (env : Env) (s : State) :
    (renderArticles env s).currentFilter = s.currentFilter := by
  unfold renderArticles
  simp only
  split <;> split <;> rfl

/-- C4, evaluated where the code departs from it: with the store A(10), B(20) and the key
`all`, `renderArticles` leaves the store as B, A, whereas under the key `saved` the same
store is left as A, B. -/
theorem renderArticles_all_reorders_store :
    (renderArticles sampleEnv
        { initialState with allArticles := [artA, artB], currentFilter := "all" }).allArticles =
        [artB, artA] ∧
      (renderArticles sampleEnv
        { initialState with allArticles := [artA, artB], currentFilter := "all" }).allArticles ≠
        [artA, artB] ∧
      (renderArticles sampleEnv
        { initialState with allArticles := [artA, artB], currentFilter := "saved" }).allArticles =
        [artA, artB] := by
  decide

/-! ## Failure paths of the two flows -/

/-- C5, evaluated where the code departs from it: a save answered 404 or 405 shows the same
text as a save answered 500, the distinct message reaching the console only; the store is
unchanged in each case. -/
theorem toggleSave_unsupported_same_text :
    (toggleSave sampleEnv sampleState "b"
        (FetchResult.response 404 "Not Found" (Body.invalid ""))).notificationText =
        "Failed to save article" ∧
      (toggleSave sampleEnv sampleState "b"
        (FetchResult.response 405 "Method Not Allowed" (Body.invalid ""))).notificationText =
        "Failed to save article" ∧
      (toggleSave sampleEnv sampleState "b"
        (FetchResult.response 500 "Internal Server Error" (Body.invalid ""))).notificationText =
        "Failed to save article" ∧
      Effect.consoleError "Error toggling save:"
          "Save functionality is not available in the static preview. Use the local server for full features." ∈
        (toggleSave sampleEnv sampleState "b"
          (FetchResult.response 404 "Not Found" (Body.invalid ""))).effects ∧
      (toggleSave sampleEnv sampleState "b"
        (FetchResult.response 404 "Not Found" (Body.invalid ""))).allArticles =
        sampleState.allArticles ∧
      (toggleSave sampleEnv sampleState "b"
        (FetchResult.response 500 "Internal Server Error" (Body.invalid ""))).allArticles =
        sampleState.allArticles := by
  decide

/-- C6, evaluated where the code departs from it: on a page showing one card, a silent load
answered 500, or rejected by the network, shows the error region with the message and
empties the grid. -/
theorem silent_load_failure_shows_error :
    Visible sampleState ViewState.populated ∧
      Visible (loadArticles sampleEnv sampleState true
        (FetchResult.response 500 "Internal Server Error" (Body.invalid ""))) ViewState.error ∧
      (loadArticles sampleEnv sampleState true
        (FetchResult.response 500 "Internal Server Error" (Body.invalid ""))).errorMessage =
        "HTTP 500: Internal Server Error" ∧
      sampleState.grid.length = 1 ∧
      (loadArticles sampleEnv sampleState true
        (FetchResult.response 500 "Internal Server Error" (Body.invalid ""))).grid = [] ∧
      Visible (loadArticles sampleEnv sampleState true
        (FetchResult.networkError "Failed to fetch")) ViewState.error := by
  decide

/-! ## Relative time -/

/-- C9: for a timestamp that parses, with m, h, D the whole minutes, hours and days elapsed
(in particular for every elapsed time of zero or more), `getTimeAgo` answers
`Just now` for m < 1, the minutes for 1 ≤ m < 60, the hours for 1 ≤ h < 24, the days for
1 ≤ D < 7 and the localized date otherwise, the unit in the singular exactly for a count
of 1; 30 seconds, 5 minutes, 90 minutes and 10 days give `Just now`, `5 minutes ago`,
`1 hour ago` and the localized date. -/
theorem getTimeAgo_spec (env : Env) (timestamp : String) (t : Int)
    (hparse : env.dateParse timestamp = some t) :
    ((env.now - t) / 60000 < 1 → getTimeAgo env timestamp = "Just now") ∧
      (1 ≤ (env.now - t) / 60000 → (env.now - t) / 60000 < 60 →
        getTimeAgo env timestamp =
          toString ((env.now - t) / 60000) ++ " minute" ++
            (if (env.now - t) / 60000 = 1 then "" else "s") ++ " ago") ∧
      (1 ≤ (env.now - t) / 60000 / 60 → (env.now - t) / 60000 / 60 < 24 →
        getTimeAgo env timestamp =
          toString ((env.now - t) / 60000 / 60) ++ " hour" ++
            (if (env.now - t) / 60000 / 60 = 1 then "" else "s") ++ " ago") ∧
      (1 ≤ (env.now - t) / 60000 / 60 / 24 → (env.now - t) / 60000 / 60 / 24 < 7 →
        getTimeAgo env timestamp =
          toString ((env.now - t) / 60000 / 60 / 24) ++ " day" ++
            (if (env.now - t) / 60000 / 60 / 24 = 1 then "" else "s") ++ " ago") ∧
      (7 ≤ (env.now - t) / 60000 / 60 / 24 →
        getTimeAgo env timestamp = env.toLocaleDateString (some t)) ∧
      (env.now - t = 30000 → getTimeAgo env timestamp = "Just now") ∧
      (env.now - t = 300000 → getTimeAgo env timestamp = "5 minutes ago") ∧
      (env.now - t = 5400000 → getTimeAgo env timestamp = "1 hour ago") ∧
      (env.now - t = 864000000 →
        getTimeAgo env timestamp = env.toLocaleDateString (some t)) := by
  have hsuffix : ∀ c : Int, 1 ≤ c → pluralSuffix c = if c = 1 then "" else "s" := by
    intro c hc
    unfold pluralSuffix
    by_cases h1 : c = 1
    · simp [h1]
    · have : c > 1 := by omega
      simp [h1, this]
  refine ⟨?_, ?_, ?_, ?_, ?_, ?_, ?_, ?_, ?_⟩
  · intro h
    simp [getTimeAgo, hparse, h]
  · intro h1 h2
    have : ¬ (env.now - t) / 60000 < 1 := by omega
    simp only [getTimeAgo, hparse, this, h2, if_true, if_false, hsuffix _ h1]
  · intro h1 h2
    have a1 : ¬ (env.now - t) / 60000 < 1 := by omega
    have a2 : ¬ (env.now - t) / 60000 < 60 := by omega
    simp only [getTimeAgo, hparse, a1, a2, h2, if_true, if_false, hsuffix _ h1]
  · intro h1 h2
    have a1 : ¬ (env.now - t) / 60000 < 1 := by omega
    have a2 : ¬ (env.now - t) / 60000 < 60 := by omega
    have a3 : ¬ (env.now - t) / 60000 / 60 < 24 := by omega
    simp only [getTimeAgo, hparse, a1, a2, a3, h2, if_true, if_false, hsuffix _ h1]
  · intro h1
    have a1 : ¬ (env.now - t) / 60000 < 1 := by omega
    have a2 : ¬ (env.now - t) / 60000 < 60 := by omega
    have a3 : ¬ (env.now - t) / 60000 / 60 < 24 := by omega
    have a4 : ¬ (env.now - t) / 60000 / 60 / 24 < 7 := by omega
    simp only [getTimeAgo, hparse, a1, a2, a3, a4, if_false]
  · intro h
    have a1 : (env.now - t) / 60000 < 1 := by rw [h]; decide
    simp only [getTimeAgo, hparse, a1, if_true]
  · intro h
    have a1 : ¬ (env.now - t) / 60000 < 1 := by rw [h]; decide
    have a2 : (env.now - t) / 60000 < 60 := by rw [h]; decide
    simp only [getTimeAgo, hparse, a1, a2, if_true, if_false]
    rw [h]
    decide
  · intro h
    have a1 : ¬ (env.now - t) / 60000 < 1 := by rw [h]; decide
    have a2 : ¬ (env.now - t) / 60000 < 60 := by rw [h]; decide
    have a3 : (env.now - t) / 60000 / 60 < 24 := by rw [h]; decide
    simp only [getTimeAgo, hparse, a1, a2, a3, if_true, if_false]
    rw [h]
    decide
  · intro h
    have a1 : ¬ (env.now - t) / 60000 < 1 := by rw [h]; decide
    have a2 : ¬ (env.now - t) / 60000 < 60 := by rw [h]; decide
    have a3 : ¬ (env.now - t) / 60000 / 60 < 24 := by rw [h]; decide
    have a4 : ¬ (env.now - t) / 60000 / 60 / 24 < 7 := by rw [h]; decide
    simp only [getTimeAgo, hparse, a1, a2, a3, a4, if_false]

/-- Instance of C9: a timestamp 10 days old under the sample environment. -/
theorem getTimeAgo_spec_witness :
    getTimeAgo sampleEnv "1970-01-01T00:00:00.020Z" =
      sampleEnv.toLocaleDateString (some 20) :=
  (getTimeAgo_spec sampleEnv "1970-01-01T00:00:00.020Z" 20 (by decide)).2.2.2.2.2.2.2.2
    (by decide)

/-! ## View states -/

/-- C10: after `showLoading` exactly the Loading state is on screen, after `showError`
exactly the Error state, and after `renderArticles` exactly the Empty state when the display
list has no article and exactly the Populated state otherwise, the grid then holding one
card per displayed article. -/
theorem exactly_one_view_state (env : Env) (s : State) (message : String) :
    OnlyVisible (showLoading s) ViewState.loading ∧
      OnlyVisible (showError s message) ViewState.error ∧
      OnlyVisible (renderArticles env s)
        (if (displayList env s.allArticles s.currentFilter).length = 0 then ViewState.empty
          else ViewState.populated) ∧
      (renderArticles env s).grid =
        (displayList env s.allArticles s.currentFilter).map (createArticleCard env) ∧
      (renderArticles env s).grid.length =
        (displayList env s.allArticles s.currentFilter).length ∧
      (Visible (renderArticles env s) ViewState.empty ↔
        (displayList env s.allArticles s.currentFilter).length = 0) := by
  refine ⟨onlyVisible_of_visible _ _ ⟨rfl, rfl, rfl, rfl⟩,
    onlyVisible_of_visible _ _ ⟨rfl, rfl, rfl, rfl⟩, ?_, renderArticles_grid env s, ?_, ?_⟩
  · by_cases h : (displayList env s.allArticles s.currentFilter).length = 0
    · rw [if_pos h]
      exact onlyVisible_of_visible _ _ (renderArticles_empty env s h)
    · rw [if_neg h]
      exact onlyVisible_of_visible _ _ (renderArticles_populated env s h)
  · rw [renderArticles_grid, List.length_map]
  · constructor
    · intro he
      by_contra h
      have hp := onlyVisible_of_visible _ _ (renderArticles_populated env s h)
      exact absurd (hp.2 _ he) (by decide)
    · exact renderArticles_empty env s

/-! ## Load flow -/

/-- The statistics update leaves the store alone. -/
lemma updateStats_allArticles (env : Env) (s : State) (lastUpdated : Option String) :
    (updateStats env s lastUpdated).allArticles = s.allArticles := by
  unfold updateStats
  cases lastUpdated <;> rfl

/-- The statistics update leaves the filter key alone. -/
lemma updateStats_currentFilter (env : Env) (s : State) (lastUpdated : Option String) :
    (updateStats env s lastUpdated).currentFilter = s.currentFilter := by
  unfold updateStats
  cases lastUpdated <;> rfl

/-- The state an explicit load ends in when the response is not ok. -/
lemma loadArticles_explicit_not_ok (env : Env) (s : State) (status : Nat)
    (statusText : String) (body : Body) (h : responseOk status = false) :
    loadArticles env s false (FetchResult.response status statusText body) =
      showError
        { showLoading s with effects := (showLoading s).effects ++
            [Effect.fetchGet "/api/articles",
              Effect.consoleError "Error loading articles:"
                ("HTTP " ++ toString status ++ ": " ++ statusText)] }
        ("HTTP " ++ toString status ++ ": " ++ statusText) := by
  simp [loadArticles, h]

/-- The state an explicit load ends in when the response is ok and carries a snapshot. -/
lemma loadArticles_explicit_ok (env : Env) (s : State) (status : Nat)
    (statusText : String) (data : Snapshot) (h : responseOk status = true) :
    loadArticles env s false (FetchResult.response status statusText (Body.json data)) =
      renderArticles env (updateStats env
        { showLoading s with
            effects := (showLoading s).effects ++ [Effect.fetchGet "/api/articles"],
            allArticles := data.articles.getD [] } data.last_updated) := by
  simp [loadArticles, h]

/-- C7: an explicit load answered with a status that is not 2xx, such as 500, ends in the
Error state showing `HTTP <status>: <statusText>` and leaves the store at its previous
value; answered with a 2xx status and a snapshot it replaces the store by the articles of
the response, whatever the store held before. -/
theorem loadArticles_explicit_spec (env : Env) (s : State) (status : Nat)
    (statusText : String) (body : Body) :
    (responseOk status = false →
      OnlyVisible (loadArticles env s false (FetchResult.response status statusText body))
          ViewState.error ∧
        (loadArticles env s false (FetchResult.response status statusText body)).errorMessage =
          "HTTP " ++ toString status ++ ": " ++ statusText ∧
        (loadArticles env s false (FetchResult.response status statusText body)).allArticles =
          s.allArticles) ∧
      (∀ data : Snapshot, responseOk status = true → body = Body.json data →
        (loadArticles env s false (FetchResult.response status statusText body)).allArticles.Perm
            (data.articles.getD []) ∧
          (s.currentFilter ≠ "all" →
            (loadArticles env s false
              (FetchResult.response status statusText body)).allArticles =
              data.articles.getD []) ∧
          (s.currentFilter = "all" →
            (loadArticles env s false
              (FetchResult.response status statusText body)).allArticles =
              sortArticles env (data.articles.getD [])) ∧
          ∀ s2 : State, s2.currentFilter = s.currentFilter →
            (loadArticles env s2 false
              (FetchResult.response status statusText body)).allArticles =
            (loadArticles env s false
              (FetchResult.response status statusText body)).allArticles) ∧
      (loadArticles sampleEnv sampleState false
        (FetchResult.response 500 "Internal Server Error" (Body.invalid ""))).errorMessage =
        "HTTP 500: Internal Server Error" ∧
      (loadArticles sampleEnv sampleState false
        (FetchResult.response 500 "Internal Server Error" (Body.invalid ""))).allArticles =
        sampleState.allArticles := by
  refine ⟨?_, ?_, by decide, by decide⟩
  · intro h
    rw [loadArticles_explicit_not_ok env s status statusText body h]
    exact ⟨onlyVisible_of_visible _ _ ⟨rfl, rfl, rfl, rfl⟩, rfl, rfl⟩
  · intro data hok hbody
    subst hbody
    have key : ∀ s2 : State,
        ((loadArticles env s2 false
            (FetchResult.response status statusText (Body.json data))).allArticles.Perm
            (data.articles.getD [])) ∧
          (s2.currentFilter ≠ "all" →
            (loadArticles env s2 false
              (FetchResult.response status statusText (Body.json data))).allArticles =
              data.articles.getD []) ∧
          (s2.currentFilter = "all" →
            (loadArticles env s2 false
              (FetchResult.response status statusText (Body.json data))).allArticles =
              sortArticles env (data.articles.getD [])) := by
      intro s2
      rw [loadArticles_explicit_ok env s2 status statusText data hok]
      refine ⟨?_, ?_, ?_⟩
      · refine (renderArticles_allArticles_perm env _).trans ?_
        rw [updateStats_allArticles]
      · intro hne
        rw [renderArticles_allArticles_of_ne env _
          (by rw [updateStats_currentFilter]; exact hne), updateStats_allArticles]
      · intro hall
        rw [renderArticles_allArticles_of_all env _
          (by rw [updateStats_currentFilter]; exact hall), updateStats_allArticles]
    refine ⟨(key s).1, (key s).2.1, (key s).2.2, ?_⟩
    intro s2 h2
    by_cases hall : s.currentFilter = "all"
    · rw [(key s).2.2 hall, (key s2).2.2 (h2.trans hall)]
    · rw [(key s).2.1 hall, (key s2).2.1 (by rw [h2]; exact hall)]

/-- Instance of C7: an explicit load of the snapshot B, A on the sample page, whose key is
`saved`, leaves the store as B, A. -/
theorem loadArticles_explicit_spec_witness :
    (loadArticles sampleEnv sampleState false
      (FetchResult.response 200 "OK"
        (Body.json { articles := some [artB, artA], last_updated := Option.none }))).allArticles =
      [artB, artA] :=
  ((loadArticles_explicit_spec sampleEnv sampleState 200 "OK"
    (Body.json { articles := some [artB, artA], last_updated := Option.none })).2.1
      { articles := some [artB, artA], last_updated := Option.none }
      (by decide) rfl).2.1 (by decide)

/-! ## Save flow -/

/-- When no article carries the id, the lookup of `toggleSave` finds nothing. -/
lemma find_none_of_absent (articleId : String) (l : List Article)
    (h : ∀ a ∈ l, a.id ≠ articleId) :
    l.find? (fun a => decide (a.id = articleId)) = Option.none := by
  rw [List.find?_eq_none]
  intro a ha
  simpa using h a ha

/-- The first article with the id, at position `i`, is the one the lookup returns and the
one whose flag the assignment changes. -/
lemma find_setSaved_first (articleId : String) (value : Bool) :
    ∀ (l : List Article) (i : Nat) (a : Article), l[i]? = some a → a.id = articleId →
      (∀ j < i, ∀ b, l[j]? = some b → b.id ≠ articleId) →
      l.find? (fun x => decide (x.id = articleId)) = some a ∧
        setSaved articleId value l = l.set i { a with saved := value }
  | [], i, a, h, _, _ => by simp at h
  | b :: l, 0, a, h, hid, _ => by
    simp only [List.getElem?_cons_zero, Option.some.injEq] at h
    subst h
    simp [setSaved, hid]
  | b :: l, i + 1, a, h, hid, hfirst => by
    have hb : b.id ≠ articleId := hfirst 0 (Nat.succ_pos i) b (by simp)
    simp only [List.getElem?_cons_succ] at h
    have ih := find_setSaved_first articleId value l i a h hid
      (fun j hj c hc => hfirst (j + 1) (Nat.succ_lt_succ hj) c (by simpa using hc))
    simp [setSaved, hb, ih.1, ih.2]

/-- Rendering records no effect. -/
lemma renderArticles_effects (env : Env) (s : State) :
    (renderArticles env s).effects = s.effects := by
  unfold renderArticles
  simp only
  split <;> split <;> rfl

/-- The statistics update records no effect. -/
lemma updateStats_effects (env : Env) (s : State) (lastUpdated : Option String) :
    (updateStats env s lastUpdated).effects = s.effects := by
  unfold updateStats
  cases lastUpdated <;> rfl

/-- The state `toggleSave` ends in when the article is found and the response is ok. -/
lemma toggleSave_ok (env : Env) (s : State) (articleId : String) (article : Article)
    (status : Nat) (statusText : String) (body : Body)
    (hfind : s.allArticles.find? (fun a => decide (a.id = articleId)) = some article)
    (hok : responseOk status = true) :
    toggleSave env s articleId (FetchResult.response status statusText body) =
      showNotification
        (renderArticles env (updateStats env
          { s with
              effects := s.effects ++
                [Effect.fetchPost ("/api/articles/" ++ articleId ++ "/save") (!article.saved)],
              allArticles := setSaved articleId (!article.saved) s.allArticles }
          Option.none))
        (if (!article.saved) = true then "Article saved!" else "Article unsaved") false := by
  simp [toggleSave, hfind, hok]

/-- Whatever the outcome of the request, a found article makes `toggleSave` issue, as the
first new effect, the request carrying the negation of the stored flag. -/
lemma toggleSave_effects (env : Env) (s : State) (articleId : String) (article : Article)
    (r : FetchResult)
    (hfind : s.allArticles.find? (fun a => decide (a.id = articleId)) = some article) :
    ∃ rest : List Effect,
      (toggleSave env s articleId r).effects =
        s.effects ++
          Effect.fetchPost ("/api/articles/" ++ articleId ++ "/save") (!article.saved) :: rest ∧
      ∀ e ∈ rest, ∀ url saved, e ≠ Effect.fetchPost url saved := by
  cases r with
  | networkError message =>
    refine ⟨[Effect.consoleError "Error toggling save:" message, Effect.hideTimer 3000], ?_, ?_⟩
    · simp [toggleSave, hfind, showNotification]
    · intro e he url saved
      simp at he
      rcases he with rfl | rfl <;> simp
  | response status statusText body =>
    cases hok : responseOk status
    · refine ⟨[Effect.consoleError "Error toggling save:" (saveErrorMessage status),
        Effect.hideTimer 3000], ?_, ?_⟩
      · simp [toggleSave, hfind, hok, showNotification]
      · intro e he url saved
        simp at he
        rcases he with rfl | rfl <;> simp
    · refine ⟨[Effect.hideTimer 3000], ?_, ?_⟩
      · rw [toggleSave_ok env s articleId article status statusText body hfind hok]
        simp [showNotification, renderArticles_effects, updateStats_effects]
      · intro e he url saved
        simp at he
        subst he
        simp

/-- C8: when no article has the id, `toggleSave` issues no request and returns the state as
it was; otherwise the request carries the negation of the saved flag of the first article
with that id, and after a 2xx response the store is the previous one with the saved flag of
that one article negated, every other article and field and the length being the same
(under the key `all` the store is in display order). -/
theorem toggleSave_frame (env : Env) (s : State) (articleId : String) (r : FetchResult) :
    ((∀ a ∈ s.allArticles, a.id ≠ articleId) → toggleSave env s articleId r = s) ∧
      (∀ (i : Nat) (a : Article), s.allArticles[i]? = some a → a.id = articleId →
        (∀ j < i, ∀ b, s.allArticles[j]? = some b → b.id ≠ articleId) →
        (∃ rest : List Effect,
          (toggleSave env s articleId r).effects =
            s.effects ++
              Effect.fetchPost ("/api/articles/" ++ articleId ++ "/save") (!a.saved) :: rest ∧
          ∀ e ∈ rest, ∀ url saved, e ≠ Effect.fetchPost url saved) ∧
        ∀ (status : Nat) (statusText : String) (body : Body),
          r = FetchResult.response status statusText body → responseOk status = true →
          (toggleSave env s articleId r).allArticles.Perm
              (s.allArticles.set i { a with saved := !a.saved }) ∧
            (s.currentFilter ≠ "all" →
              (toggleSave env s articleId r).allArticles =
                s.allArticles.set i { a with saved := !a.saved }) ∧
            (toggleSave env s articleId r).allArticles.length = s.allArticles.length) := by
  refine ⟨?_, ?_⟩
  · intro h
    unfold toggleSave
    rw [find_none_of_absent articleId s.allArticles h]
  · intro i a hi hid hfirst
    obtain ⟨hfind, hset⟩ := find_setSaved_first articleId (!a.saved) s.allArticles i a hi hid hfirst
    refine ⟨toggleSave_effects env s articleId a r hfind, ?_⟩
    intro status statusText body hr hok
    subst hr
    rw [toggleSave_ok env s articleId a status statusText body hfind hok]
    have hstore : ∀ t : State, ∀ text : String, ∀ b : Bool,
        (showNotification t text b).allArticles = t.allArticles := fun _ _ _ => rfl
    rw [hstore]
    have hperm := renderArticles_allArticles_perm env (updateStats env
      { s with
          effects := s.effects ++
            [Effect.fetchPost ("/api/articles/" ++ articleId ++ "/save") (!a.saved)],
          allArticles := setSaved articleId (!a.saved) s.allArticles } Option.none)
    rw [updateStats_allArticles] at hperm
    replace hperm := hperm.trans (List.Perm.of_eq hset)
    refine ⟨hperm, ?_, ?_⟩
    · intro hne
      rw [renderArticles_allArticles_of_ne env _
        (by rw [updateStats_currentFilter]; exact hne), updateStats_allArticles]
      exact hset
    · rw [hperm.length_eq, List.length_set]

/-- Instance of C8: on the sample page, whose key is `saved`, a successful toggle of A turns
the store A, B into the same two articles with A saved. -/
theorem toggleSave_frame_witness :
    (toggleSave sampleEnv sampleState "a"
      (FetchResult.response 200 "OK" (Body.invalid ""))).allArticles =
      [{ artA with saved := true }, artB] :=
  (((toggleSave_frame sampleEnv sampleState "a"
    (FetchResult.response 200 "OK" (Body.invalid ""))).2 0 artA (by decide) (by decide)
      (by intro j hj; exact absurd hj (Nat.not_lt_zero j))).2
        200 "OK" (Body.invalid "") rfl (by decide)).2.1 (by decide)

end Dashboard
